import Mathlib

/-
Verification of the print-bot job orchestration core.

Shallow embedding, in Lean 4, of the relevant functions of printing.py,
conversion.py, scanning.py and handlers.py, together with proofs of the
stated properties. Machine integers are modelled as Nat or Int; fallible
code returns Except values; a coroutine await that can fail to complete is
modelled with Option (none meaning the await never finishes); calls to
external processes are modelled by passing the outcome of the call as an
explicit argument; the sequence of subprocess invocations or signals a
function performs is returned alongside its result as an explicit trace.
-/

/-! Section: booklet imposer (printing.py). -/

/-- Embedding of calculate_signature_config, printing.py lines 17 to 28.
The source computes math.ceil(page_count / 4) and
math.ceil(total_sheets / sheets_per_signature) on positive Python ints;
for positive integers a and b, math.ceil of the exact ratio a over b equals
the natural ceiling division (a + b - 1) / b used here.
Returns the tuple (num_signatures, sheets_per_signature, total_sheets,
total_sheets_with_blanks) in the source order. -/
def calculate_signature_config (page_count : Nat) (default_sheets : Nat) : Nat × Nat × Nat × Nat :=
  let total_sheets := (page_count + 3) / 4
  if page_count < 29 then
    let sheets_per_signature := min total_sheets default_sheets
    (1, sheets_per_signature, total_sheets, sheets_per_signature)
  else
    let sheets_per_signature := default_sheets
    let num_signatures := (total_sheets + sheets_per_signature - 1) / sheets_per_signature
    (num_signatures, sheets_per_signature, total_sheets, sheets_per_signature * num_signatures)

/-- C1: for every pageCount at least 1 and defaultSheetsPerSignature at least 1,
calculate_signature_config returns totalSheets equal to the ceiling of
pageCount over 4 (characterised below as the unique ts with
pageCount at most 4 ts and 4 ts below pageCount + 4); when pageCount is below
29 it returns numSignatures 1, sheetsPerSignature the minimum of totalSheets
and the default, and totalSheetsWithBlanks equal to sheetsPerSignature;
otherwise sheetsPerSignature is the default, numSignatures is the ceiling of
totalSheets over sheetsPerSignature (characterised as the unique n with
ts at most s n and s n below ts + s), and totalSheetsWithBlanks is their
product. In particular inputs (40, 5) yield (2, 5, 10, 10) and inputs
(20, 5) yield (1, 5, 5, 5). -/
theorem calculate_signature_config_correct
    (page_count default_sheets n s ts b : Nat)
    (hp : 1 ≤ page_count) (hd : 1 ≤ default_sheets)
    (hout : calculate_signature_config page_count default_sheets = (n, s, ts, b)) :
    (page_count ≤ 4 * ts ∧ 4 * ts < page_count + 4) ∧
    (page_count < 29 → n = 1 ∧ s = min ts default_sheets ∧ b = s) ∧
    (29 ≤ page_count → s = default_sheets ∧ (ts ≤ s * n ∧ s * n < ts + s) ∧ b = s * n) ∧
    calculate_signature_config 40 5 = (2, 5, 10, 10) ∧
    calculate_signature_config 20 5 = (1, 5, 5, 5) := by
  simp only [calculate_signature_config] at hout
  by_cases hc : page_count < 29
  · rw [if_pos hc] at hout
    simp only [Prod.mk.injEq] at hout
    obtain ⟨h1, h2, h3, h4⟩ := hout
    refine ⟨by omega, fun _ => ⟨by omega, by omega, by omega⟩, fun h => absurd h (by omega),
      by decide, by decide⟩
  · rw [if_neg hc] at hout
    simp only [Prod.mk.injEq] at hout
    obtain ⟨h1, h2, h3, h4⟩ := hout
    subst h1; subst h2; subst h3; subst h4
    have hdm := Nat.div_add_mod ((page_count + 3) / 4 + default_sheets - 1) default_sheets
    have hml : ((page_count + 3) / 4 + default_sheets - 1) % default_sheets < default_sheets :=
      Nat.mod_lt _ (by omega)
    exact ⟨by omega, fun h => absurd h (by omega),
      fun _ => ⟨rfl, ⟨by omega, by omega⟩, rfl⟩, by decide, by decide⟩

/-- Witness for C1: the theorem applied at the concrete input (40, 5). -/
theorem calculate_signature_config_correct_witness :
    ((40 : Nat) ≤ 4 * 10 ∧ 4 * 10 < 40 + 4) ∧
    ((40 : Nat) < 29 → (2 : Nat) = 1 ∧ (5 : Nat) = min 10 5 ∧ (10 : Nat) = 5) ∧
    ((29 : Nat) ≤ 40 → (5 : Nat) = 5 ∧ ((10 : Nat) ≤ 5 * 2 ∧ 5 * 2 < 10 + 5) ∧ (10 : Nat) = 5 * 2) ∧
    calculate_signature_config 40 5 = (2, 5, 10, 10) ∧
    calculate_signature_config 20 5 = (1, 5, 5, 5) :=
  calculate_signature_config_correct 40 5 2 5 10 10 (by decide) (by decide) (by decide)

/-- Pairing loop of create_booklet_for_short_edge, printing.py lines 63 to 72:
for each sheet index i below total_pages / 2, the source appends the pair
(pages left, pages right) where for even i the pair of indices is
(total_pages - i - 1, i) and for odd i it is (i, total_pages - i - 1).
This definition records the index pair (left, right) of each appended sheet. -/
def bookletPairs (total_pages : Nat) : List (Nat × Nat) :=
  (List.range (total_pages / 2)).map fun i =>
    if i % 2 == 0 then (total_pages - i - 1, i) else (i, total_pages - i - 1)

/-- The page indices occurring in a list of (left, right) pairs, in order. -/
def pairIndices (ps : List (Nat × Nat)) : List Nat :=
  ps.flatMap fun p => [p.1, p.2]

/-- Occurrences of the page indices of a pair list, as an indicator sum. -/
theorem count_pairIndices (L : List (Nat × Nat)) (a : Nat) :
    (pairIndices L).count a
      = (L.map fun p => ((if p.1 = a then 1 else 0) + (if p.2 = a then 1 else 0) : Nat)).sum := by
  induction L with
  | nil => simp [pairIndices]
  | cons p L ih =>
    simp only [pairIndices, List.flatMap_cons, List.map_cons, List.sum_cons] at *
    simp only [List.cons_append, List.nil_append, List.count_cons, ih]
    have h1 : (p.1 == a) = decide (p.1 = a) := rfl
    have h2 : (p.2 == a) = decide (p.2 = a) := rfl
    split_ifs <;> simp_all <;> omega

/-- Indicator sum over an initial range: a is hit once exactly when a < h. -/
theorem sum_indicator_range (h a : Nat) :
    ((List.range h).map fun i => if i = a then (1 : Nat) else 0).sum
      = if a < h then 1 else 0 := by
  induction h with
  | zero => simp
  | succ h ih =>
    rw [List.range_succ, List.map_append, List.sum_append, ih]
    simp only [List.map_cons, List.map_nil, List.sum_cons, List.sum_nil]
    split_ifs <;> omega

/-- Indicator sum over a reflected range: with h at most total, the map
i to total - i - 1 sends the range below h bijectively onto the indices
from total - h up to total - 1. -/
theorem sum_indicator_range_reflected (h total a : Nat) (hh : h ≤ total) :
    ((List.range h).map fun i => if total - i - 1 = a then (1 : Nat) else 0).sum
      = if total - h ≤ a ∧ a < total then 1 else 0 := by
  induction h with
  | zero =>
    simp only [List.range_zero, List.map_nil, List.sum_nil]
    rw [if_neg (by omega)]
  | succ h ih =>
    rw [List.range_succ, List.map_append, List.sum_append, ih (by omega)]
    simp only [List.map_cons, List.map_nil, List.sum_cons, List.sum_nil]
    split_ifs <;> omega

/-- Pointwise sums of natural lists split. -/
theorem sum_map_add {α : Type} (l : List α) (f g : α → Nat) :
    (l.map fun i => f i + g i).sum = (l.map f).sum + (l.map g).sum := by
  induction l with
  | nil => simp
  | cons x l ih => simp [ih]; omega

/-- Each natural below n occurs exactly once in the range list. -/
theorem count_range_eq (n a : Nat) :
    (List.range n).count a = if a < n then 1 else 0 := by
  induction n with
  | zero => simp
  | succ n ih =>
    rw [List.range_succ, List.count_append, ih]
    have h1 : (n == a) = decide (n = a) := rfl
    simp only [List.count_cons, List.count_nil, h1]
    split_ifs <;> simp_all <;> omega

/-- C2: for every even total at least 2, the multiset of page indices of the
pairs produced by the booklet pairing rule covers every index below total
exactly once: the flattened index list is a permutation of the range list. -/
theorem bookletPairs_cover (total : Nat) (heven : total % 2 = 0) (hpos : 2 ≤ total) :
    (pairIndices (bookletPairs total)).Perm (List.range total) := by
  rw [List.perm_iff_count]
  intro a
  rw [count_pairIndices, count_range_eq, bookletPairs, List.map_map]
  have hcong : ∀ i ∈ List.range (total / 2),
      ((fun p : Nat × Nat => ((if p.1 = a then 1 else 0) + (if p.2 = a then 1 else 0) : Nat)) ∘
        fun i => if i % 2 == 0 then (total - i - 1, i) else (i, total - i - 1)) i
      = (fun i => ((if i = a then 1 else 0) + (if total - i - 1 = a then 1 else 0) : Nat)) i := by
    intro i _
    by_cases hpar : i % 2 == 0
    · simp only [Function.comp_apply, if_pos hpar]; omega
    · simp only [Function.comp_apply, if_neg hpar]
  rw [List.map_congr_left hcong, sum_map_add, sum_indicator_range,
    sum_indicator_range_reflected (total / 2) total a (by omega)]
  split_ifs <;> omega

/-- Witness for C2: the pairing for a six page window, checked concretely. -/
theorem bookletPairs_cover_witness :
    (6 : Nat) % 2 = 0 ∧ (2 : Nat) ≤ 6 ∧ (pairIndices (bookletPairs 6)).Perm (List.range 6) :=
  ⟨by decide, by decide, bookletPairs_cover 6 (by decide) (by decide)⟩

/-- Signature window generation loop of create_booklet_for_short_edge,
printing.py lines 42 to 54: starting at page cur, each iteration emits the
window from cur up to min (cur + pages_per_sig) num_pages, then continues
from the end of that window. The source records for every window the fields
start, end, total_pages_needed = pages_per_sig, actual_pages = end - start
and empty_pages = pages_per_sig - actual_pages; start and end determine the
others, so a window is embedded as the pair (start, end). The source loop
does not terminate when pages_per_sig is zero; this embedding returns the
empty list in that degenerate case, which the claims never reach since they
assume sheets_per_signature is at least 1. -/
def signatureWindows (pages_per_sig num_pages cur : Nat) : List (Nat × Nat) :=
  if h : cur < num_pages ∧ 0 < pages_per_sig then
    (cur, min (cur + pages_per_sig) num_pages) ::
      signatureWindows pages_per_sig num_pages (min (cur + pages_per_sig) num_pages)
  else []
termination_by num_pages - cur
decreasing_by omega

/-- Splitting a range list of consecutive naturals at an interior point. -/
theorem range'_split (a m n : Nat) :
    List.range' a (m + n) = List.range' a m ++ List.range' (a + m) n := by
  rw [Nat.add_comm m n, ← List.range'_append]
  simp

/-- The windows starting at cur tile exactly the page indices from cur to
num_pages: flattening each window into its page range reproduces the range
of the remaining pages, in order. -/
theorem signatureWindows_flatten (pps num : Nat) (hp : 0 < pps) :
    ∀ fuel cur, num - cur ≤ fuel →
      ((signatureWindows pps num cur).flatMap fun w => List.range' w.1 (w.2 - w.1))
        = List.range' cur (num - cur) := by
  intro fuel
  induction fuel with
  | zero =>
    intro cur hcur
    rw [signatureWindows]
    rw [dif_neg (by omega)]
    simp only [List.flatMap_nil]
    have hz : num - cur = 0 := by omega
    rw [hz, List.range'_zero]
  | succ fuel ih =>
    intro cur hcur
    rw [signatureWindows]
    by_cases hc : cur < num ∧ 0 < pps
    · rw [dif_pos hc]
      have hrec := ih (min (cur + pps) num) (by omega)
      simp only [List.flatMap_cons, hrec]
      have hsplit : num - cur = (min (cur + pps) num - cur) + (num - min (cur + pps) num) := by
        omega
      rw [hsplit, range'_split]
      congr 2
      omega
    · rw [dif_neg hc]
      simp only [List.flatMap_nil]
      have hz : num - cur = 0 := by omega
      rw [hz, List.range'_zero]

/-- Every window emitted from cur onward is nonempty, stays within the page
count, starts no earlier than cur and holds at most pps actual pages. -/
theorem signatureWindows_bounds (pps num : Nat) :
    ∀ fuel cur, num - cur ≤ fuel →
      ∀ w ∈ signatureWindows pps num cur,
        cur ≤ w.1 ∧ w.1 < w.2 ∧ w.2 ≤ num ∧ w.2 - w.1 ≤ pps := by
  intro fuel
  induction fuel with
  | zero =>
    intro cur hcur w hw
    rw [signatureWindows, dif_neg (by omega)] at hw
    simp at hw
  | succ fuel ih =>
    intro cur hcur w hw
    rw [signatureWindows] at hw
    by_cases hc : cur < num ∧ 0 < pps
    · rw [dif_pos hc] at hw
      rcases List.mem_cons.mp hw with hhead | htail
      · subst hhead; refine ⟨by omega, by omega, by omega, by omega⟩
      · have := ih (min (cur + pps) num) (by omega) w htail
        refine ⟨by omega, this.2.1, this.2.2.1, this.2.2.2⟩
    · rw [dif_neg hc] at hw
      simp at hw

/-- The window list emitted from cur is empty exactly when no page remains
or pps is zero. -/
theorem signatureWindows_eq_nil_iff (pps num cur : Nat) :
    signatureWindows pps num cur = [] ↔ ¬(cur < num ∧ 0 < pps) := by
  rw [signatureWindows]
  by_cases h : cur < num ∧ 0 < pps
  · rw [dif_pos h]; simp [h]
  · rw [dif_neg h]; simp [h]

/-- Every window except the last one is completely full: it holds exactly
pps actual pages, so no blank page is ever added to a non final window. -/
theorem signatureWindows_dropLast_full (pps num : Nat) :
    ∀ fuel cur, num - cur ≤ fuel →
      ∀ w ∈ (signatureWindows pps num cur).dropLast, w.2 - w.1 = pps := by
  intro fuel
  induction fuel with
  | zero =>
    intro cur hcur w hw
    rw [signatureWindows, dif_neg (by omega)] at hw
    simp at hw
  | succ fuel ih =>
    intro cur hcur w hw
    rw [signatureWindows] at hw
    by_cases hc : cur < num ∧ 0 < pps
    · rw [dif_pos hc] at hw
      by_cases hrest : signatureWindows pps num (min (cur + pps) num) = []
      · rw [hrest] at hw
        simp at hw
      · rw [List.dropLast_cons_of_ne_nil hrest] at hw
        rcases List.mem_cons.mp hw with hhead | htail
        · subst hhead
          have hlt : min (cur + pps) num < num ∧ 0 < pps := by
            by_contra hcl
            exact hrest ((signatureWindows_eq_nil_iff pps num _).mpr hcl)
          show min (cur + pps) num - cur = pps
          omega
        · exact ih (min (cur + pps) num) (by omega) w htail
    · rw [dif_neg hc] at hw
      simp at hw

/-- Concrete evaluation of the window loop at 24 pages and 5 sheets per
signature: two windows, although calculate_signature_config reports a single
signature for 24 pages. -/
theorem signatureWindows_example : signatureWindows (5 * 4) 24 0 = [(0, 20), (20, 24)] := by
  rw [signatureWindows, dif_pos (by omega), signatureWindows, dif_pos (by omega),
    signatureWindows, dif_neg (by omega)]
  decide

/-- C10: for every pageCount at least 1 and sheetsPerSignature at least 1, the
window generation of create_booklet_for_short_edge partitions the source page
indices below pageCount into consecutive windows of sheetsPerSignature * 4
slots: flattening the windows reproduces the full page range in order (so
every source page index lies in exactly one window), every window holds
between 1 and sheetsPerSignature * 4 actual pages, and every window except
the final one is completely full, so only the final window is padded with
blank pages. This holds for the window loop itself, independently of the
separately computed SignatureConfig: for instance pageCount 24 with default 5
yields numSignatures 1 from calculate_signature_config even though the loop
emits two windows. -/
theorem signatureWindows_partition (sheets_per_signature num_pages : Nat)
    (hs : 1 ≤ sheets_per_signature) (hn : 1 ≤ num_pages) :
    (((signatureWindows (sheets_per_signature * 4) num_pages 0).flatMap
        fun w => List.range' w.1 (w.2 - w.1)) = List.range num_pages) ∧
    (∀ w ∈ signatureWindows (sheets_per_signature * 4) num_pages 0,
        w.1 < w.2 ∧ w.2 ≤ num_pages ∧ w.2 - w.1 ≤ sheets_per_signature * 4) ∧
    (∀ w ∈ (signatureWindows (sheets_per_signature * 4) num_pages 0).dropLast,
        w.2 - w.1 = sheets_per_signature * 4) ∧
    calculate_signature_config 24 5 = (1, 5, 6, 5) ∧
    (signatureWindows (5 * 4) 24 0).length = 2 := by
  refine ⟨?_, ?_, ?_, by decide, by rw [signatureWindows_example]; rfl⟩
  · have h := signatureWindows_flatten (sheets_per_signature * 4) num_pages (by omega)
      num_pages 0 (by omega)
    rw [h]
    have : num_pages - 0 = num_pages := by omega
    rw [this, List.range_eq_range']
  · intro w hw
    have h := signatureWindows_bounds (sheets_per_signature * 4) num_pages
      num_pages 0 (by omega) w hw
    exact ⟨h.2.1, h.2.2.1, h.2.2.2⟩
  · intro w hw
    exact signatureWindows_dropLast_full (sheets_per_signature * 4) num_pages
      num_pages 0 (by omega) w hw

/-- Witness for C10: the theorem applied at one sheet per signature and six
pages, where the loop emits the two windows (0, 4) and (4, 6). -/
theorem signatureWindows_partition_witness :
    (((signatureWindows (1 * 4) 6 0).flatMap
        fun w => List.range' w.1 (w.2 - w.1)) = List.range 6) ∧
    (∀ w ∈ signatureWindows (1 * 4) 6 0,
        w.1 < w.2 ∧ w.2 ≤ 6 ∧ w.2 - w.1 ≤ 1 * 4) ∧
    (∀ w ∈ (signatureWindows (1 * 4) 6 0).dropLast, w.2 - w.1 = 1 * 4) ∧
    calculate_signature_config 24 5 = (1, 5, 6, 5) ∧
    (signatureWindows (5 * 4) 24 0).length = 2 :=
  signatureWindows_partition 1 6 (by decide) (by decide)

/-! Section: page range validation and print dispatch (printing.py,
handlers.py). Python re.match with a pattern anchored by a dollar sign is
embedded with the documented semantics of the dollar anchor: it matches at
the end of the string or just before a newline that is the last character
of the string. The digit class is embedded as the decimal digits; the
Python class also covers other Unicode decimal digits, which none of the
properties below involve. -/

/-- A character of the page range character class: digits, comma, hyphen. -/
def rangeChar (c : Char) : Bool :=
  c.isDigit || c == ',' || c == '-'

/-- Lifts a whole-body matcher to the Python dollar anchor semantics: the
pattern matches the string, or it matches the string without one trailing
newline character. -/
def matchDollar (core : List Char → Bool) (s : List Char) : Bool :=
  core s ||
    (match s.getLast? with
     | some c => c == '\n' && core s.dropLast
     | none => false)

/-- Character class body of the dispatcher pattern used at printing.py line
122: one or more characters, each a digit, comma or hyphen. -/
def charsetCore (s : List Char) : Bool :=
  !s.isEmpty && s.all rangeChar

/-- Embedding of the validation re.match at printing.py line 122 (anchored
caret, one or more characters of the class digits comma hyphen, anchored
dollar), applied to the full string via Python re.match truthiness. -/
def matchesCharset (s : String) : Bool :=
  matchDollar charsetCore s.data

/-- Consumes one or more leading decimal digits; returns the rest of the
input, or none when no digit is present. -/
def munchDigits (l : List Char) : Option (List Char) :=
  if (l.takeWhile Char.isDigit).isEmpty then none else some (l.dropWhile Char.isDigit)

/-- Consumes one token of the dialog pattern: digits, optionally followed by
a hyphen and further digits. When a hyphen follows the digits but no digit
follows the hyphen, the optional group is not taken and the rest starts at
the hyphen, as regex backtracking would leave it. -/
def munchToken (l : List Char) : Option (List Char) :=
  match munchDigits l with
  | none => none
  | some r =>
    match r with
    | c :: r2 =>
      if c = '-' then
        match munchDigits r2 with
        | some r3 => some r3
        | none => some r
      else some r
    | [] => some r

/-- Matches the starred tail of the dialog pattern: a possibly empty
repetition of a comma followed by a token, consuming the whole input. The
fuel argument bounds the recursion; every iteration consumes at least the
comma, so fuel equal to the input length is always sufficient. -/
def tokensTail : Nat → List Char → Bool
  | _, [] => true
  | 0, _ :: _ => false
  | fuel + 1, c :: r =>
    c == ',' &&
      (match munchToken r with
       | some r2 => tokensTail fuel r2
       | none => false)

/-- Whole-body matcher of the dialog pattern of handlers.py line 459: a
token, then a repetition of comma and token, consuming the whole input. -/
def rangeCore (s : List Char) : Bool :=
  match munchToken s with
  | some r => tokensTail r.length r
  | none => false

/-- Embedding of the user facing validation re.match at handlers.py line 459
(anchored: digits with an optional hyphen group, then a starred comma group,
then the dollar anchor). -/
def matchesRangeDialog (s : String) : Bool :=
  matchDollar rangeCore s.data

/-- Outcome of one subprocess.run call inside print_file_postscript:
the call completed with a return code, raised TimeoutExpired, or raised
some other exception such as a spawn failure. -/
inductive RunRes
  | completed (returncode : Int)
  | timedOut
  | raised
deriving DecidableEq

/-- The full lp command line built by print_file_postscript, printing.py
lines 96 to 127, including the optional validated page range option. -/
def print_cmd (file_path : String) (booklet duplex : Bool) (page_range : Option String)
    (printer_name : String) : List String :=
  ["lp", "-d", printer_name, "-o", "PageSize=A4"]
  ++ (if booklet then ["-o", "sides=two-sided-short-edge", "-o", "Duplex=DuplexTumble"]
      else if duplex then ["-o", "sides=two-sided-long-edge", "-o", "Duplex=DuplexNoTumble"]
      else ["-o", "sides=one-sided", "-o", "Duplex=None"])
  ++ ["-o", if booklet then "Quality=300dpi" else "Quality=600dpi"]
  ++ ["-o", "JCLEconomode=Off", "-o", "InputSlot=Auto", "-o", "MediaType=Plain",
      "-o", "ColorModel=Gray", "-o", "fit-to-page", "-o", "document-format=application/pdf"]
  ++ (match page_range with
      | some r => ["-o", "page-ranges=" ++ r]
      | none => [])
  ++ [file_path]

/-- The simplified retry command of printing.py line 139. -/
def simplePrintCmd (printer_name file_path : String) : List String :=
  ["lp", "-d", printer_name, "-o", "PageSize=A4", "-o", "fit-to-page", file_path]

/-- Python truthiness of the optional page range string at printing.py line
120: an absent or empty range behaves as no range at all. -/
def effRange (page_range : Option String) : Option String :=
  match page_range with
  | some r => if r.isEmpty then none else some r
  | none => none

/-- The two attempt run of printing.py lines 129 to 147: the primary command
runs first; on a zero return code the function succeeds; on a nonzero return
code the simplified command runs once and its return code decides the
outcome; a TimeoutExpired or any other exception yields failure. The second
component is the trace of command lines handed to subprocess.run, in order. -/
def printAttempts (cmd simple : List String) (primary fallback : RunRes) :
    Bool × List (List String) :=
  match primary with
  | .completed rc =>
    if rc = 0 then (true, [cmd])
    else
      match fallback with
      | .completed rc2 => (decide (rc2 = 0), [cmd, simple])
      | .timedOut => (false, [cmd, simple])
      | .raised => (false, [cmd, simple])
  | .timedOut => (false, [cmd])
  | .raised => (false, [cmd])

/-- Embedding of print_file_postscript, printing.py lines 92 to 147. The
outcomes of the two possible subprocess.run calls are passed as arguments;
the returned trace lists the command lines actually submitted. A nonempty
page range failing the character class validation returns failure before
any command is run. -/
def print_file_postscript (file_path : String) (booklet duplex : Bool)
    (page_range : Option String) (printer_name : String) (primary fallback : RunRes) :
    Bool × List (List String) :=
  match effRange page_range with
  | some r =>
    if matchesCharset r then
      printAttempts (print_cmd file_path booklet duplex (some r) printer_name)
        (simplePrintCmd printer_name file_path) primary fallback
    else (false, [])
  | none =>
    printAttempts (print_cmd file_path booklet duplex none printer_name)
      (simplePrintCmd printer_name file_path) primary fallback

/-- Behaviour of the two attempt runner on a completed primary command: a
zero return code succeeds with one submission; a nonzero return code runs
the simplified command exactly once and the outcome is success exactly when
the fallback returns zero. -/
theorem printAttempts_spec (cmd simple : List String) (fallback : RunRes) (c : Int) :
    (c = 0 → printAttempts cmd simple (.completed c) fallback = (true, [cmd])) ∧
    (c ≠ 0 → (printAttempts cmd simple (.completed c) fallback).2 = [cmd, simple] ∧
      ((printAttempts cmd simple (.completed c) fallback).1 = true ↔
        fallback = .completed 0)) := by
  constructor
  · intro h0
    simp [printAttempts, h0]
  · intro hne
    simp only [printAttempts]
    rw [if_neg hne]
    cases fallback with
    | completed rc2 =>
      refine ⟨rfl, ?_⟩
      simp only [decide_eq_true_eq, RunRes.completed.injEq]
    | timedOut => exact ⟨rfl, by simp⟩
    | raised => exact ⟨rfl, by simp⟩

/-- C5: for every print submission whose page range (when present and
nonempty) passes validation, if the primary lp command completes with return
code 0 the function succeeds after the single primary submission; if it
completes with a nonzero return code the function submits the minimal
fallback command exactly once, the trace being exactly the primary command
followed by the simplified command, and the overall result is success
exactly when the fallback attempt returns 0 — so success of either attempt
counts as overall success and failure is reported only after the one
fallback. A primary attempt that raises before completing (timeout or spawn
failure) is reported as failure by the surrounding handler without reaching
the fallback. -/
theorem print_fallback_once (file_path printer_name : String) (booklet duplex : Bool)
    (page_range : Option String) (primary fallback : RunRes) (c : Int)
    (hv : ∀ r, effRange page_range = some r → matchesCharset r = true)
    (hp : primary = .completed c) :
    (c = 0 → print_file_postscript file_path booklet duplex page_range printer_name primary fallback
        = (true, [print_cmd file_path booklet duplex (effRange page_range) printer_name])) ∧
    (c ≠ 0 →
      (print_file_postscript file_path booklet duplex page_range printer_name primary fallback).2
        = [print_cmd file_path booklet duplex (effRange page_range) printer_name,
           simplePrintCmd printer_name file_path] ∧
      ((print_file_postscript file_path booklet duplex page_range printer_name primary fallback).1
          = true ↔ fallback = .completed 0)) := by
  subst hp
  rcases her : effRange page_range with _ | r
  · simp only [print_file_postscript, her]
    exact printAttempts_spec _ _ fallback c
  · simp only [print_file_postscript, her]
    rw [if_pos (hv r her)]
    exact printAttempts_spec _ _ fallback c

/-- Witness for C5: primary command fails with return code 1, the fallback
succeeds, and the overall submission succeeds with exactly two attempts. -/
theorem print_fallback_once_witness :
    ((1 : Int) = 0 →
      print_file_postscript "a.pdf" false false none "P" (.completed 1) (.completed 0)
        = (true, [print_cmd "a.pdf" false false (effRange none) "P"])) ∧
    ((1 : Int) ≠ 0 →
      (print_file_postscript "a.pdf" false false none "P" (.completed 1) (.completed 0)).2
        = [print_cmd "a.pdf" false false (effRange none) "P", simplePrintCmd "P" "a.pdf"] ∧
      ((print_file_postscript "a.pdf" false false none "P" (.completed 1) (.completed 0)).1 = true
          ↔ RunRes.completed 0 = RunRes.completed 0)) :=
  print_fallback_once "a.pdf" "P" false false none (.completed 1) (.completed 0) 1
    (fun r h => by simp [effRange] at h) rfl

/-- C6 counterexample: the string of a digit followed by a newline contains a
character outside the class of digits, commas and hyphens, yet the validation
of the dispatcher accepts it, and the range is placed on the command line,
because the dollar anchor of Python re also matches just before a trailing
newline. -/
theorem charset_accepts_trailing_newline :
    ('\n' ∈ "1\n".data ∧ rangeChar '\n' = false) ∧
    matchesCharset "1\n" = true ∧
    print_file_postscript "doc.pdf" false false (some "1\n") "P" (.completed 0) (.completed 0)
      = (true, [print_cmd "doc.pdf" false false (some "1\n") "P"]) ∧
    "page-ranges=1\n" ∈ print_cmd "doc.pdf" false false (some "1\n") "P" := by
  refine ⟨by decide, by decide, by decide, by decide⟩

/-- C6 amended: for every nonempty supplied page range string, the dispatcher
accepts it exactly when either every character is a digit, comma or hyphen,
or the string is such a nonempty body followed by one trailing newline (the
single tolerance forced by the dollar anchor semantics of Python re); every
rejected range yields failure with no command ever run, so the range is
never placed on a command line; and the user facing dialog validator accepts
1-3,5,7-9 while rejecting 1-3;5 and abc. -/
theorem charset_validation_characterized (s file_path printer_name : String)
    (booklet duplex : Bool) (primary fallback : RunRes)
    (hne : s.isEmpty = false) :
    (matchesCharset s = true ↔
      (s.data ≠ [] ∧ s.data.all rangeChar = true) ∨
      (∃ body, s.data = body ++ ['\n'] ∧ body ≠ [] ∧ body.all rangeChar = true)) ∧
    (matchesCharset s = false →
      print_file_postscript file_path booklet duplex (some s) printer_name primary fallback
        = (false, [])) ∧
    matchesRangeDialog "1-3,5,7-9" = true ∧
    matchesRangeDialog "1-3;5" = false ∧
    matchesRangeDialog "abc" = false := by
  refine ⟨?_, ?_, by decide, by decide, by decide⟩
  · unfold matchesCharset matchDollar charsetCore
    constructor
    · intro h
      rcases Bool.or_eq_true _ _ |>.mp h with hcore | htail
      · left
        rcases Bool.and_eq_true _ _ |>.mp hcore with ⟨h1, h2⟩
        exact ⟨by simpa using h1, h2⟩
      · right
        rcases List.eq_nil_or_concat s.data with hnil | ⟨L, b, hL⟩
        · rw [hnil] at htail
          simp at htail
        · rw [List.concat_eq_append] at hL
          rw [hL, List.getLast?_concat] at htail
          rcases Bool.and_eq_true _ _ |>.mp htail with ⟨hb, hcore2⟩
          rw [List.dropLast_concat] at hcore2
          rcases Bool.and_eq_true _ _ |>.mp hcore2 with ⟨h1, h2⟩
          have hb' : b = '\n' := by simpa using hb
          refine ⟨L, ?_, by simpa using h1, h2⟩
          rw [hL, hb']
    · intro h
      rcases h with ⟨h1, h2⟩ | ⟨body, heq, hbne, hball⟩
      · apply Bool.or_eq_true _ _ |>.mpr
        left
        apply Bool.and_eq_true _ _ |>.mpr
        exact ⟨by simpa using h1, h2⟩
      · apply Bool.or_eq_true _ _ |>.mpr
        right
        rw [heq, List.getLast?_concat]
        apply Bool.and_eq_true _ _ |>.mpr
        refine ⟨by simp, ?_⟩
        rw [List.dropLast_concat]
        apply Bool.and_eq_true _ _ |>.mpr
        exact ⟨by simpa using hbne, hball⟩
  · intro h
    simp only [print_file_postscript, effRange, hne, Bool.false_eq_true, if_false, h]

/-- Witness for C6: the range string x;y is rejected by the characterisation
and the dispatcher returns failure with an empty command trace. -/
theorem charset_validation_characterized_witness :
    (matchesCharset "x;y" = true ↔
      ("x;y".data ≠ [] ∧ "x;y".data.all rangeChar = true) ∨
      (∃ body, "x;y".data = body ++ ['\n'] ∧ body ≠ [] ∧ body.all rangeChar = true)) ∧
    (matchesCharset "x;y" = false →
      print_file_postscript "f.pdf" false false (some "x;y") "P" (.completed 0) (.completed 0)
        = (false, [])) ∧
    matchesRangeDialog "1-3,5,7-9" = true ∧
    matchesRangeDialog "1-3;5" = false ∧
    matchesRangeDialog "abc" = false :=
  charset_validation_characterized "x;y" "f.pdf" "P" false false (.completed 0) (.completed 0)
    (by decide)

/-- A successful digit munch splits the input into a nonempty digit prefix
and the returned rest. -/
theorem munchDigits_spec (l r : List Char) (h : munchDigits l = some r) :
    ∃ p, l = p ++ r ∧ p ≠ [] ∧ p.all Char.isDigit = true := by
  unfold munchDigits at h
  by_cases he : (l.takeWhile Char.isDigit).isEmpty
  · rw [if_pos he] at h
    exact absurd h (by simp)
  · rw [if_neg he] at h
    refine ⟨l.takeWhile Char.isDigit, ?_, by simpa using he, ?_⟩
    · rw [← Option.some.injEq _ _ |>.mp h]
      exact (List.takeWhile_append_dropWhile _ _).symm
    · exact List.all_eq_true.mpr fun x hx => List.mem_takeWhile_imp hx

/-- Digit lists lie inside the page range character class. -/
theorem all_digit_all_rangeChar (p : List Char) (h : p.all Char.isDigit = true) :
    p.all rangeChar = true := by
  apply List.all_eq_true.mpr
  intro x hx
  have := List.all_eq_true.mp h x hx
  unfold rangeChar
  simp [this]


/-- A successful token munch splits the input into a nonempty prefix of
characters of the page range class and the returned rest. -/
theorem munchToken_spec (l r : List Char) (h : munchToken l = some r) :
    ∃ p, l = p ++ r ∧ p ≠ [] ∧ p.all rangeChar = true := by
  unfold munchToken at h
  cases hd : munchDigits l with
  | none => rw [hd] at h; exact absurd h (by simp)
  | some r1 =>
    rw [hd] at h
    obtain ⟨p1, hp1, hne1, hall1⟩ := munchDigits_spec l r1 hd
    have hall1R := all_digit_all_rangeChar p1 hall1
    cases r1 with
    | nil =>
      have hr : r = [] := by simpa using h.symm
      subst hr
      exact ⟨p1, hp1, hne1, hall1R⟩
    | cons c r2 =>
      dsimp only at h
      by_cases hc : c = '-'
      · rw [if_pos hc] at h
        cases hd2 : munchDigits r2 with
        | none =>
          rw [hd2] at h
          have hr : r = c :: r2 := by simpa using h.symm
          subst hr
          exact ⟨p1, hp1, hne1, hall1R⟩
        | some r3 =>
          rw [hd2] at h
          have hr : r = r3 := by simpa using h.symm
          obtain ⟨p2, hp2, hne2, hall2⟩ := munchDigits_spec r2 r3 hd2
          have hall2R := all_digit_all_rangeChar p2 hall2
          subst hr
          refine ⟨p1 ++ c :: p2, ?_, by simp, ?_⟩
          · rw [hp1, hp2]
            simp
          · rw [List.all_append, hall1R]
            subst hc
            simp [List.all_cons, hall2R]
            decide
      · rw [if_neg hc] at h
        have hr : r = c :: r2 := by simpa using h.symm
        subst hr
        exact ⟨p1, hp1, hne1, hall1R⟩

/-- Every character consumed by the starred comma and token tail lies in the
page range character class. -/
theorem tokensTail_all (fuel : Nat) :
    ∀ l, tokensTail fuel l = true → l.all rangeChar = true := by
  induction fuel with
  | zero =>
    intro l h
    cases l with
    | nil => simp
    | cons c r => simp [tokensTail] at h
  | succ fuel ih =>
    intro l h
    cases l with
    | nil => simp
    | cons c r =>
      simp only [tokensTail, Bool.and_eq_true] at h
      obtain ⟨hc, hm⟩ := h
      cases hmt : munchToken r with
      | none => rw [hmt] at hm; exact absurd hm (by simp)
      | some r2 =>
        rw [hmt] at hm
        obtain ⟨p, hp, hne, hall⟩ := munchToken_spec r r2 hmt
        have hr2 := ih r2 hm
        have hcc : c = ',' := by simpa using hc
        subst hp hcc
        simp only [List.all_cons, List.all_append, Bool.and_eq_true]
        exact ⟨by decide, List.all_eq_true.mp hall |> fun hh => by
          exact List.all_eq_true.mpr hh, hr2⟩

/-- A string body accepted by the dialog pattern is nonempty and consists
of characters of the page range class only. -/
theorem rangeCore_charset (l : List Char) (h : rangeCore l = true) :
    charsetCore l = true := by
  unfold rangeCore at h
  cases hmt : munchToken l with
  | none => rw [hmt] at h; exact absurd h (by simp)
  | some r =>
    rw [hmt] at h
    obtain ⟨p, hp, hne, hall⟩ := munchToken_spec l r hmt
    have hr := tokensTail_all r.length r h
    subst hp
    unfold charsetCore
    simp only [List.all_append, Bool.and_eq_true]
    refine ⟨?_, hall, hr⟩
    cases p with
    | nil => exact absurd rfl hne
    | cons x xs => simp

/-- C9: every string accepted by the user facing dialog pattern of
handlers.py line 459 is also accepted by the dispatcher character class
pattern of printing.py line 122, under the same Python dollar anchor
semantics on both sides, so a range accepted in the dialog is never
rejected afterwards by the validation in print_file_postscript. -/
theorem dialog_accept_implies_charset (s : String)
    (h : matchesRangeDialog s = true) : matchesCharset s = true := by
  unfold matchesRangeDialog matchDollar at h
  unfold matchesCharset matchDollar
  rcases Bool.or_eq_true _ _ |>.mp h with hcore | htail
  · exact Bool.or_eq_true _ _ |>.mpr (Or.inl (rangeCore_charset _ hcore))
  · apply Bool.or_eq_true _ _ |>.mpr
    right
    cases hl : s.data.getLast? with
    | none => rw [hl] at htail; exact absurd htail (by simp)
    | some c =>
      rw [hl] at htail
      rcases Bool.and_eq_true _ _ |>.mp htail with ⟨hc, hcore⟩
      exact Bool.and_eq_true _ _ |>.mpr ⟨hc, rangeCore_charset _ hcore⟩

/-- Witness for C9: the dialog accepted range 1-3,5 passes the dispatcher
character class validation. -/
theorem dialog_accept_implies_charset_witness : matchesCharset "1-3,5" = true :=
  dialog_accept_implies_charset "1-3,5" (by decide)

/-! Section: external process runner and grayscale stage (conversion.py,
scanning.py). The outcome of the external command is an explicit argument;
the completion of the runner coroutine is an Option, with none modelling an
await that never finishes. -/

/-- Behaviour of the child process after the termination request that the
timeout handler sends: it exits, it never exits, or the await of its exit
status itself raises an exception. -/
inductive ChildOnTerm
  | exits
  | neverExits
  | waitRaises
deriving DecidableEq

/-- Outcome of spawning and awaiting one external command: the command ran
to completion with a return code and captured output, the await timed out
with the child then behaving as described, or spawning raised. -/
inductive ExecResult
  | ran (returncode : Int) (stdout stderr : String)
  | timeout (child : ChildOnTerm)
  | spawnFail

/-- The Python exceptions travelling out of the embedded functions. -/
inductive PyErr
  | timeoutErr (seconds : Nat)
  | nonZeroExit (returncode : Int) (stderr : String)
  | spawnErr
  | runtime (msg : String)
deriving DecidableEq

/-- Signals sent to the child process. -/
inductive Signal
  | term
  | kill
deriving DecidableEq

/-- Embedding of run_subprocess, conversion.py lines 51 to 89. The first
component is the completion of the coroutine: on timeout the handler calls
process.terminate and then awaits process.wait with no further timeout, so a
child that ignores the termination request is awaited forever, modelled as
none; process.kill is reached only when that await itself raises. A
completed run with nonzero return code raises a runtime error; the outer
except block logs and re-raises unchanged. The second component is the list
of signals sent to the child, in order. -/
def run_subprocess (timeout_s : Nat) (r : ExecResult) :
    Option (Except PyErr (String × String)) × List Signal :=
  match r with
  | .spawnFail => (some (.error .spawnErr), [])
  | .ran rc out err =>
    if rc ≠ 0 then (some (.error (.nonZeroExit rc err)), [])
    else (some (.ok (out, err)), [])
  | .timeout child =>
    match child with
    | .exits => (some (.error (.timeoutErr timeout_s)), [.term])
    | .neverExits => (none, [.term])
    | .waitRaises => (some (.error (.timeoutErr timeout_s)), [.term, .kill])

/-- Embedding of _run_scan_command, scanning.py lines 19 to 44: identical
timeout handling, except that a completed command returns its return code to
the caller instead of raising on a nonzero code. -/
def _run_scan_command (timeout_s : Nat) (r : ExecResult) :
    Option (Except PyErr (String × String × Int)) × List Signal :=
  match r with
  | .spawnFail => (some (.error .spawnErr), [])
  | .ran rc out err => (some (.ok (out, err, rc)), [])
  | .timeout child =>
    match child with
    | .exits => (some (.error (.timeoutErr timeout_s)), [.term])
    | .neverExits => (none, [.term])
    | .waitRaises => (some (.error (.timeoutErr timeout_s)), [.term, .kill])

/-- C7 counterexample: at timeout 60 with a child that ignores the
termination request, the runner never completes and never sends a force
kill; there is no bounded grace period, contradicting the claim that the
runner always returns a timeout error and never leaves the child running. -/
theorem run_subprocess_no_bounded_grace :
    run_subprocess 60 (.timeout .neverExits) = (none, [Signal.term]) ∧
    _run_scan_command 60 (.timeout .neverExits) = (none, [Signal.term]) :=
  ⟨rfl, rfl⟩

/-- C7 amended: on timeout both runners first send the termination request
and then await the child exit without any bound: when that await completes
the runner fails with a timeout error carrying the configured duration, a
force kill being sent exactly when the await itself raised; and when the
child never exits after the termination request the runner never completes
and no force kill is ever sent. -/
theorem run_subprocess_timeout_behavior (t : Nat) (child : ChildOnTerm) :
    ((run_subprocess t (.timeout child)).2.head? = some .term) ∧
    (∀ res, (run_subprocess t (.timeout child)).1 = some res →
      res = .error (.timeoutErr t)) ∧
    ((Signal.kill ∈ (run_subprocess t (.timeout child)).2) ↔ child = .waitRaises) ∧
    (child = .neverExits → (run_subprocess t (.timeout child)).1 = none) ∧
    ((_run_scan_command t (.timeout child)).2.head? = some .term) ∧
    (∀ res, (_run_scan_command t (.timeout child)).1 = some res →
      res = .error (.timeoutErr t)) ∧
    ((Signal.kill ∈ (_run_scan_command t (.timeout child)).2) ↔ child = .waitRaises) ∧
    (child = .neverExits → (_run_scan_command t (.timeout child)).1 = none) := by
  cases child <;> simp [run_subprocess, _run_scan_command]

/-- Witness for C7 amended: a child that exits on the termination request at
timeout 5 yields a timeout error carrying 5, a leading termination signal
and no force kill, for both runners. -/
theorem run_subprocess_timeout_behavior_witness :
    ((run_subprocess 5 (.timeout .exits)).2.head? = some .term) ∧
    (∀ res, (run_subprocess 5 (.timeout .exits)).1 = some res →
      res = .error (.timeoutErr 5)) ∧
    ((Signal.kill ∈ (run_subprocess 5 (.timeout .exits)).2) ↔
      ChildOnTerm.exits = .waitRaises) ∧
    (ChildOnTerm.exits = .neverExits → (run_subprocess 5 (.timeout .exits)).1 = none) ∧
    ((_run_scan_command 5 (.timeout .exits)).2.head? = some .term) ∧
    (∀ res, (_run_scan_command 5 (.timeout .exits)).1 = some res →
      res = .error (.timeoutErr 5)) ∧
    ((Signal.kill ∈ (_run_scan_command 5 (.timeout .exits)).2) ↔
      ChildOnTerm.exits = .waitRaises) ∧
    (ChildOnTerm.exits = .neverExits → (_run_scan_command 5 (.timeout .exits)).1 = none) :=
  run_subprocess_timeout_behavior 5 .exits

/-- File paths handled by the pipeline, built structurally: a caller
supplied input path, the Ghostscript output path of the grayscale run on a
given input, and the fresh temporary copy that utils.create_temp_copy makes
of a path. -/
inductive PathV
  | input (name : String)
  | grayOf (p : PathV)
  | tempCopy (p : PathV)
deriving DecidableEq

/-- Embedding of utils.create_temp_copy, utils.py lines 63 to 70: a fresh
temporary file holding a copy of the argument path. -/
def create_temp_copy (p : PathV) : PathV :=
  .tempCopy p

/-- Try block of convert_pdf_to_grayscale, conversion.py lines 223 to 253:
run Ghostscript through run_subprocess with a 60 second timeout, then
require the output file to exist with size at least 1024 bytes, returning a
temporary copy of the grayscale output. The Ghostscript outcome and the
state of the output file are explicit arguments; none models a run whose
await never completes. -/
def grayscaleBody (pdf_path : PathV) (gs : ExecResult)
    (out_exists : Bool) (out_size : Nat) : Option (Except PyErr PathV) :=
  match (run_subprocess 60 gs).1 with
  | none => none
  | some (.error e) => some (.error e)
  | some (.ok _) =>
    if out_exists = false || out_size < 1024 then
      some (.error (.runtime "Созданный grayscale PDF пустой или слишком маленький"))
    else some (.ok (create_temp_copy (.grayOf pdf_path)))

/-- Embedding of convert_pdf_to_grayscale, conversion.py lines 208 to 262:
the except block around the whole body posts a status message, logs the
failure and returns a fresh temporary copy of the original path instead of
re-raising. The status side channel is modelled as effect free, matching the
specification scope that treats the chat transport as an external
collaborator. -/
def convert_pdf_to_grayscale (pdf_path : PathV) (gs : ExecResult)
    (out_exists : Bool) (out_size : Nat) : Option (Except PyErr PathV) :=
  match grayscaleBody pdf_path gs out_exists out_size with
  | none => none
  | some (.ok p) => some (.ok p)
  | some (.error _) => some (.ok (create_temp_copy pdf_path))

/-- C3: for every input path, Ghostscript outcome and output file state, the
grayscale stage never lets an error reach the caller: the completed result
is never an error value, and whenever the stage body fails for any reason
(nonzero exit, timeout, spawn failure, missing output or output below 1024
bytes) the function instead returns a fresh temporary copy of the original
non grayscale input path. -/
theorem grayscale_never_raises (pdf_path : PathV) (gs : ExecResult)
    (out_exists : Bool) (out_size : Nat) :
    (∀ e, convert_pdf_to_grayscale pdf_path gs out_exists out_size ≠ some (.error e)) ∧
    (∀ e, grayscaleBody pdf_path gs out_exists out_size = some (.error e) →
      convert_pdf_to_grayscale pdf_path gs out_exists out_size
        = some (.ok (PathV.tempCopy pdf_path))) := by
  constructor
  · intro e
    unfold convert_pdf_to_grayscale
    cases hb : grayscaleBody pdf_path gs out_exists out_size with
    | none => simp
    | some x =>
      cases x with
      | ok p => simp
      | error e2 => simp [create_temp_copy]
  · intro e hb
    unfold convert_pdf_to_grayscale
    rw [hb]
    rfl

/-- Witness for C3: a Ghostscript run that exits with code 1 makes the body
fail with a nonzero exit error, and the stage returns the temporary copy of
the original path. -/
theorem grayscale_never_raises_witness :
    convert_pdf_to_grayscale (.input "doc") (.ran 1 "" "boom") true 4096
      = some (.ok (PathV.tempCopy (.input "doc"))) :=
  (grayscale_never_raises (.input "doc") (.ran 1 "" "boom") true 4096).2
    (PyErr.nonZeroExit 1 "boom") rfl

/-! Section: batch scanning (scanning.py). -/

/-- A scanned page: one of the numbered batch outputs, or the single
unnumbered fallback file. -/
inductive ScanPage
  | numbered (n : Nat)
  | single
deriving DecidableEq

/-- Collection loop of scan_multiple_pages, scanning.py lines 136 to 144:
walk the numbered outputs upward from page number i, taking each page whose
file exists and is nonempty, and stop at the first gap. The source loop is a
plain while loop; the batch command writes at most 50 numbered files into
the fresh temporary directory (batch-count 50 starting at 1), so explicit
fuel of 50 covers every reachable state. disk n states that the file
scan_n.pnm exists and is nonempty. -/
def collectScanned (disk : Nat → Bool) : Nat → Nat → List Nat
  | 0, _ => []
  | fuel + 1, i => if disk i then i :: collectScanned disk fuel (i + 1) else []

/-- Embedding of scan_multiple_pages, scanning.py lines 112 to 173. The
batch command outcome, the numbered files it left on disk and the presence
of the unnumbered fallback file are explicit arguments. When the await of
the batch command raises, the collection loop after it never runs, so the
except handler always observes an empty scanned list: a timeout therefore
re-raises the dedicated timeout message (the partial result branch of the
handler at lines 164 to 166 is unreachable), and any other exception
propagates. After a completed command (any return code) the collected pages
are returned; with a nonzero return code and no pages a scan error is
raised, and with no pages at all a no-pages error is raised. The source
appends the decoded stderr text to the scan error message; the error
payload is not used by any property here. -/
def scan_multiple_pages (disk : Nat → Bool) (alt_single : Bool) (r : ExecResult) :
    Option (Except PyErr (List ScanPage)) :=
  match (_run_scan_command 600 r).1 with
  | none => none
  | some (.error e) =>
    match e with
    | .timeoutErr _ => some (.error (.runtime "Таймаут сканирования. Проверьте сканер."))
    | other => some (.error other)
  | some (.ok (_out, _err, rc)) =>
    let scanned := (collectScanned disk 50 1).map ScanPage.numbered
    let scanned := if scanned.isEmpty && alt_single then [ScanPage.single] else scanned
    if rc ≠ 0 && scanned.isEmpty then
      some (.error (.runtime "Ошибка сканирования"))
    else if scanned.isEmpty then
      some (.error (.runtime "Не удалось отсканировать ни одной страницы"))
    else some (.ok scanned)

/-- Disk state after three pages were captured: scan_1.pnm, scan_2.pnm and
scan_3.pnm exist and are nonempty, nothing else does. -/
def threePagesDisk : Nat → Bool :=
  fun i => decide (1 ≤ i) && decide (i ≤ 3)

/-- C4, evaluated at the failing input: with pages 1 to 3 captured on disk,
a batch command that times out makes scan_multiple_pages discard the three
captured pages and fail with the dedicated timeout error, because the
numbered outputs are only collected after the await returned, while the very
same disk state with a nonzero exit status does return exactly the three
pages. The partial result branch of the timeout handler in the source is
unreachable, contradicting both the stated claim and the evident intent of
that handler. -/
theorem scan_multiple_pages_timeout_discards :
    scan_multiple_pages threePagesDisk false (.timeout .exits)
      = some (.error (.runtime "Таймаут сканирования. Проверьте сканер.")) ∧
    scan_multiple_pages threePagesDisk false (.ran 1 "" "jam")
      = some (.ok [ScanPage.numbered 1, ScanPage.numbered 2, ScanPage.numbered 3]) := by
  constructor
  · rfl
  · rfl

/-! Section: session state machine (handlers.py). The per user session is
the user_data dictionary; the file system is the list of existing paths;
the chat side channel is effect free, matching the specification scope. -/

/-- The session fields stored in context.user_data by
handle_document_or_photo, handlers.py lines 240 to 249 (the source kind
flags are irrelevant to the properties below and omitted). -/
structure SessionData where
  pdf_path : String
  file_name : String
  page_count : Nat
  print_mode : String
  awaiting_custom_range : Bool
deriving DecidableEq

/-- Deleting a path: the source guards os.unlink with os.path.exists, and
removing an absent path leaves the file list unchanged, so the guarded
deletion is plain removal. -/
def unlink (fs : List String) (p : String) : List String :=
  fs.filter fun q => !(q == p)

/-- Embedding of execute_print_with_range, handlers.py lines 413 to 442:
with no session the function only reports an error; with a session it prints
with the stored mode and the given range through print_file_postscript, then
unconditionally deletes the owned artifact and clears the session. Returns
the new session, the new file list and the reported print outcome. -/
def execute_print_with_range (user_data : Option SessionData) (fs : List String)
    (page_range : Option String) (printer_name : String) (primary fallback : RunRes) :
    Option SessionData × List String × Bool :=
  match user_data with
  | none => (none, fs, false)
  | some d =>
    let duplex := d.print_mode == "duplex"
    let success :=
      (print_file_postscript d.pdf_path false duplex page_range printer_name
        primary fallback).1
    (none, unlink fs d.pdf_path, success)

/-- Embedding of the print_normal_only branch of button_callback,
handlers.py lines 317 to 324: print one sided, delete the artifact, clear
the session, report the outcome. -/
def button_print_normal_only (user_data : Option SessionData) (fs : List String)
    (printer_name : String) (primary fallback : RunRes) :
    Option SessionData × List String × Bool :=
  match user_data with
  | none => (none, fs, false)
  | some d =>
    let success :=
      (print_file_postscript d.pdf_path false false none printer_name primary fallback).1
    (none, unlink fs d.pdf_path, success)

/-- Embedding of the print_booklet branch of button_callback, handlers.py
lines 342 to 392. Below two pages the branch refuses and keeps the session
(no dispatch happens). Otherwise the booklet files returned by
create_booklet_for_short_edge are an explicit argument: an empty list makes
the branch raise, and the except block deletes the artifact and clears the
session; a nonempty list is printed sheet by sheet (per sheet outcomes are
an explicit argument, success is their conjunction), then the booklet files
and the artifact are deleted and the session is cleared. -/
def button_print_booklet (user_data : Option SessionData) (fs : List String)
    (booklet_files : List String) (printer_name : String)
    (outcomes : String → RunRes × RunRes) :
    Option SessionData × List String × Bool :=
  match user_data with
  | none => (none, fs, false)
  | some d =>
    if d.page_count < 2 then (some d, fs, false)
    else if booklet_files.isEmpty then
      (none, unlink fs d.pdf_path, false)
    else
      let success := booklet_files.all fun f =>
        (print_file_postscript f true true none printer_name
          (outcomes f).1 (outcomes f).2).1
      (none, unlink (booklet_files.foldl unlink fs) d.pdf_path, success)

/-- A removed path is no longer present. -/
theorem not_mem_unlink_self (fs : List String) (p : String) : p ∉ unlink fs p := by
  intro h
  have := List.of_mem_filter h
  simp at this

/-- C8: every session that reaches a print dispatch is destroyed by it: for
the ranged dispatch (covering the normal and duplex modes and both the all
pages and custom range paths), the one sided dispatch and the booklet
dispatch with at least two pages, the resulting session is cleared and the
owned artifact path is absent from the resulting file system, whatever the
print outcomes, the page range, the booklet files and the initial file
system — success and failure alike. -/
theorem session_cleared_after_dispatch (d : SessionData) (fs : List String)
    (page_range : Option String) (printer_name : String) (primary fallback : RunRes)
    (booklet_files : List String) (outcomes : String → RunRes × RunRes)
    (hpc : 2 ≤ d.page_count) :
    ((execute_print_with_range (some d) fs page_range printer_name primary fallback).1 = none ∧
      d.pdf_path ∉
        (execute_print_with_range (some d) fs page_range printer_name primary fallback).2.1) ∧
    ((button_print_normal_only (some d) fs printer_name primary fallback).1 = none ∧
      d.pdf_path ∉ (button_print_normal_only (some d) fs printer_name primary fallback).2.1) ∧
    ((button_print_booklet (some d) fs booklet_files printer_name outcomes).1 = none ∧
      d.pdf_path ∉
        (button_print_booklet (some d) fs booklet_files printer_name outcomes).2.1) := by
  refine ⟨⟨rfl, not_mem_unlink_self _ _⟩, ⟨rfl, not_mem_unlink_self _ _⟩, ?_⟩
  simp only [button_print_booklet]
  rw [if_neg (by omega)]
  by_cases hb : booklet_files.isEmpty
  · rw [if_pos hb]
    exact ⟨rfl, not_mem_unlink_self _ _⟩
  · rw [if_neg hb]
    exact ⟨rfl, not_mem_unlink_self _ _⟩

/-- Witness for C8: a concrete three page session holding s.pdf, with the
file present on disk, a failing primary print and one booklet sheet file. -/
theorem session_cleared_after_dispatch_witness :
    ((execute_print_with_range (some ⟨"s.pdf", "f", 3, "normal", false⟩) ["s.pdf"] none "P"
        (.completed 1) (.completed 1)).1 = none ∧
      "s.pdf" ∉ (execute_print_with_range (some ⟨"s.pdf", "f", 3, "normal", false⟩) ["s.pdf"]
        none "P" (.completed 1) (.completed 1)).2.1) ∧
    ((button_print_normal_only (some ⟨"s.pdf", "f", 3, "normal", false⟩) ["s.pdf"] "P"
        (.completed 1) (.completed 1)).1 = none ∧
      "s.pdf" ∉ (button_print_normal_only (some ⟨"s.pdf", "f", 3, "normal", false⟩) ["s.pdf"]
        "P" (.completed 1) (.completed 1)).2.1) ∧
    ((button_print_booklet (some ⟨"s.pdf", "f", 3, "normal", false⟩) ["s.pdf"] ["b0.pdf"] "P"
        (fun _ => (.completed 1, .completed 1))).1 = none ∧
      "s.pdf" ∉ (button_print_booklet (some ⟨"s.pdf", "f", 3, "normal", false⟩) ["s.pdf"]
        ["b0.pdf"] "P" (fun _ => (.completed 1, .completed 1))).2.1) :=
  session_cleared_after_dispatch ⟨"s.pdf", "f", 3, "normal", false⟩ ["s.pdf"] none "P"
    (.completed 1) (.completed 1) ["b0.pdf"] (fun _ => (.completed 1, .completed 1))
    (by decide)
